import Mathlib

/-!
Verification of the local multi-process test-network orchestrator
(`src/chain/src/main.rs`).  The Rust program is shallowly embedded:
pure fragments become Lean functions, fallible fragments return
`Except`/`Option`, the effectful launch loop and `main` are modelled as
functions of an explicit environment of operation outcomes that also
produce a trace of observable actions.
-/

/-- Command-line configuration (struct `Config`, lines 21-67 of
`src/chain/src/main.rs`).  All fields mirror the Rust struct. -/
structure Config where
  num_nodes : Nat
  optimal_connected : Bool
  genesis_root : String
  rpc_port_offset : Nat
  peer_port_offset : Nat
  rts_flags : String
  housekeeping_interval : Nat
  continue_state : Bool
  no_emit_logs : Bool
deriving Repr, DecidableEq

/-- Dashboard state (struct `App`, lines 69-72): tab titles and the
active tab index. -/
structure App where
  titles : List String
  index : Nat
deriving Repr, DecidableEq

/-- `App::new` (lines 75-80): initial active tab index is 0. -/
def App.new (titles : List String) : App :=
  { titles := titles, index := 0 }

/-- `App::next` (lines 82-84): `self.index = (self.index + 1) % self.titles.len()`. -/
def App.next (a : App) : App :=
  { a with index := (a.index + 1) % a.titles.length }

/-- `App::previous` (lines 86-92): decrement, wrapping from 0 to `len - 1`. -/
def App.previous (a : App) : App :=
  if a.index > 0 then { a with index := a.index - 1 }
  else { a with index := a.titles.length - 1 }

/-- Tab titles built in `main` (lines 110-113): `"Node i"` for each `i`. -/
def mkTitles (n : Nat) : List String :=
  (List.range n).map (fun i => "Node " ++ toString i)

/-- Split a character list at every newline character; mirrors the
splitting underlying `str::lines` before terminator handling.
The result is always non-empty. -/
def splitOnNl : List Char → List (List Char)
  | [] => [[]]
  | c :: cs =>
    if c = '\n' then [] :: splitOnNl cs
    else
      match splitOnNl cs with
      | [] => [[c]]
      | p :: ps => (c :: p) :: ps

/-- Strip one trailing carriage return from a line, as `str::lines` does. -/
def stripCr (l : List Char) : List Char :=
  if l.getLast? = some '\r' then l.dropLast else l

/-- Rust `str::lines`: split on newlines, drop a final empty segment
(newline is a terminator, not a separator), strip a trailing `'\r'`. -/
def rustLines (l : List Char) : List (List Char) :=
  let parts := splitOnNl l
  let parts := if parts.getLast? = some [] then parts.dropLast else parts
  parts.map stripCr

/-- `view_log` (lines 405-424): count newline bytes; if more than 35,
drop all but the last 34 lines and rejoin with newlines; otherwise show
the whole buffer.  The returned value is the text of the rendered
paragraph; the `node_num` argument only feeds the widget title. -/
def view_log (line : List Char) (node_num : Nat) : List Char :=
  let no_lines := (line.filter (fun c => c == '\n')).length
  if no_lines > 35 then
    List.intercalate ['\n'] ((rustLines line).drop (no_lines - 34))
  else line

/-- Body rendering of `ui` (lines 393-400): the active tab index is
matched against the constants 0-4; any other index hits
`unreachable!()`, and a missing log buffer hits `.unwrap()`; both
partial outcomes are modelled as `none`. -/
def uiRender (index : Nat) (logs : List (List Char)) : Option (List Char) :=
  match index with
  | 0 => (logs[0]?).map (fun l => view_log l 0)
  | 1 => (logs[1]?).map (fun l => view_log l 1)
  | 2 => (logs[2]?).map (fun l => view_log l 2)
  | 3 => (logs[3]?).map (fun l => view_log l 3)
  | 4 => (logs[4]?).map (fun l => view_log l 4)
  | _ => none

/-- One draw of the dashboard (line 341): the body of the active tab is
rendered from the log buffers; `ui` receives the buffers by reference
and `view_log` a clone, so the buffers themselves are returned
unchanged. -/
def renderFrame (app : App) (logs : List (List Char)) :
    Option (List Char) × List (List Char) :=
  (uiRender app.index logs, logs)

/-- A per-node log buffer holding the given newline-free lines, each
appended with its terminating newline, as `read_line` delivers them. -/
def mkBuffer (ls : List (List Char)) : List Char :=
  (ls.map (fun l => l ++ ['\n'])).flatten

/-- Outcome of one `read_line` call on a node's error-output stream:
a line was delivered, end of stream was reached (`read_line` returns
`Ok(0)` and appends nothing), or the read itself erred. -/
inductive ReadEvent where
  | line (s : List Char)
  | eof
  | err
deriving Repr, DecidableEq

/-- The inner loop of a log-streaming task (lines 303-306): ten
consecutive `read_line` calls accumulate into one batch.  `none` models
the `.unwrap()` panic on a read error; otherwise the batch text and the
next stream position are returned. -/
def readBatch (stream : Nat → ReadEvent) : Nat → Nat → List Char →
    Option (List Char × Nat)
  | p, 0, acc => some (acc, p)
  | p, k + 1, acc =>
    match stream p with
    | ReadEvent.err => none
    | ReadEvent.eof => readBatch stream (p + 1) k acc
    | ReadEvent.line s => readBatch stream (p + 1) k (acc ++ s)

/-- The log-streaming task (lines 301-324) run for `fuel` outer
iterations from stream position `p`: each iteration reads one batch and
sends it on the node's channel when non-empty.  Returns the list of
batches sent and whether the task ended (panicked) within those
iterations. -/
def readerRun (stream : Nat → ReadEvent) : Nat → Nat →
    List (List Char) × Bool
  | _, 0 => ([], false)
  | p, fuel + 1 =>
    match readBatch stream p 10 [] with
    | none => ([], true)
    | some (buf, p2) =>
      let rest := readerRun stream p2 fuel
      (if buf = [] then rest.1 else buf :: rest.1, rest.2)

/-- Manifest path of the node crate (line 147). -/
def pathToNode : String := "../deps/concordium-node/concordium-node/Cargo.toml"

/-- The sixteen-digit hexadecimal node id (line 175). -/
def nodeIdHex (i : Nat) : String :=
  let ds := Nat.toDigits 16 i
  String.mk (List.replicate (16 - ds.length) '0' ++ ds)

/-- Path of a baker credentials file under the genesis root
(lines 217-219 and 262-264); `canonicalize` success is tracked
separately by a `credOk` oracle. -/
def bakerCredentialsPath (root : String) (k : Nat) : String :=
  root ++ "/bakers/baker-" ++ toString k ++ "-credentials.json"

/-- Environment variables set for every node before the topology branch
(lines 172-197). -/
def baseEnvs (cfg : Config) (i : Nat) : List (String × String) :=
  [("RUST_BACKTRACE", "full"),
   ("CONCORDIUM_NODE_RUNTIME_HASKELL_RTS_FLAGS", cfg.rts_flags),
   ("CONCORDIUM_NODE_CONNECTION_NO_BOOTSTRAP_DNS", "1"),
   ("CONCORDIUM_NODE_ID", nodeIdHex i),
   ("CONCORDIUM_NODE_CONFIG_DIR", "peer-" ++ toString i),
   ("CONCORDIUM_NODE_DATA_DIR", "peer-" ++ toString i),
   ("CONCORDIUM_NODE_RPC_SERVER_PORT", toString (i + cfg.rpc_port_offset)),
   ("CONCORDIUM_NODE_LISTEN_PORT", toString (i + cfg.peer_port_offset)),
   ("CONCORDIUM_NODE_LISTEN_ADDRESS", "0.0.0.0"),
   ("CONCORDIUM_NODE_CONNECTION_HOUSEKEEPING_INTERVAL",
     toString cfg.housekeeping_interval),
   ("CONCORDIUM_NODE_MAX_NORMAL_KEEP_ALIVE",
     toString (cfg.housekeeping_interval * 3))]

/-- Arguments common to every node invocation (lines 199-203). -/
def baseArgs : List String :=
  ["run", "--manifest-path", pathToNode, "--release", "--quiet", "--"]

/-- Baker-credential environment in sequential mode (lines 215-225):
only the last node gets credentials, always from
`baker-0-credentials.json`; a failing `canonicalize` aborts. -/
def seqBakerEnvs (cfg : Config) (credOk : Nat → Bool) (i : Nat) :
    Except String (List (String × String)) :=
  if i = cfg.num_nodes - 1 then
    if credOk 0 = true then
      Except.ok [("CONCORDIUM_NODE_BAKER_CREDENTIALS_FILE",
        bakerCredentialsPath cfg.genesis_root 0)]
    else Except.error "Invalid baker credentials"
  else Except.ok []

/-- Baker-credential environment in full-mesh mode (lines 260-270): the
first five nodes get per-node credentials; a failing `canonicalize`
aborts. -/
def meshBakerEnvs (cfg : Config) (credOk : Nat → Bool) (i : Nat) :
    Except String (List (String × String)) :=
  if i < 5 then
    if credOk i = true then
      Except.ok [("CONCORDIUM_NODE_BAKER_CREDENTIALS_FILE",
        bakerCredentialsPath cfg.genesis_root i)]
    else Except.error "Invalid baker credentials"
  else Except.ok []

/-- Environment variables and arguments of one node's command. -/
structure CmdSpec where
  envs : List (String × String)
  args : List String
deriving Repr, DecidableEq

/-- Construction of node `i`'s command (lines 171-281): base
environment, then the topology branch — sequential (lines 210-258) sets
the forward connection and desired/max peer counts as environment
variables, full-mesh (lines 259-281) passes `--connect-to` arguments
for every other node and sets no peer-count variables. -/
def buildNodeCmd (cfg : Config) (credOk : Nat → Bool) (i : Nat) :
    Except String CmdSpec :=
  if cfg.optimal_connected = false then
    match seqBakerEnvs cfg credOk i with
    | Except.error e => Except.error e
    | Except.ok bakerEnvs =>
      let next_peer_port := cfg.peer_port_offset + i + 1
      let connectEnvs :=
        if i < cfg.num_nodes - 1 then
          [("CONCORDIUM_NODE_CONNECTION_CONNECT_TO",
            "127.0.0.1:" ++ toString next_peer_port)]
        else []
      let peerCount := if i = 0 ∨ i = cfg.num_nodes - 1 then "1" else "2"
      Except.ok
        { envs := baseEnvs cfg i ++ bakerEnvs ++ connectEnvs ++
            [("CONCORDIUM_NODE_CONNECTION_DESIRED_NODES", peerCount),
             ("CONCORDIUM_NODE_CONNECTION_MAX_ALLOWED_NODES", peerCount)],
          args := baseArgs }
  else
    match meshBakerEnvs cfg credOk i with
    | Except.error e => Except.error e
    | Except.ok bakerEnvs =>
      let connectArgs := (List.range cfg.num_nodes).flatMap
        (fun n => if i = n then []
          else ["--connect-to",
            "127.0.0.1:" ++ toString (cfg.peer_port_offset + n)])
      Except.ok { envs := baseEnvs cfg i ++ bakerEnvs,
                  args := baseArgs ++ connectArgs }

/-- Lookup of an environment variable among the `(key, value)` pairs a
command sets; every key is set at most once. -/
def envLookup (key : String) (envs : List (String × String)) : Option String :=
  (envs.find? (fun p => p.1 == key)).map (fun p => p.2)

/-- A concrete sequential-mode configuration with five nodes, matching
the CLI defaults. -/
def cfgSeq5 : Config :=
  { num_nodes := 5, optimal_connected := false,
    genesis_root := "genesis_data", rpc_port_offset := 7000,
    peer_port_offset := 8000, rts_flags := "-N2",
    housekeeping_interval := 300, continue_state := false,
    no_emit_logs := false }

/-- Sequential-mode configuration with three nodes. -/
def cfgSeq3 : Config := { cfgSeq5 with num_nodes := 3 }

/-- Sequential-mode configuration with two nodes. -/
def cfgSeq2 : Config := { cfgSeq5 with num_nodes := 2 }

/-- Full-mesh configuration with seven nodes. -/
def cfgMesh7 : Config :=
  { cfgSeq5 with num_nodes := 7, optimal_connected := true }

/-- Full-mesh configuration with two nodes. -/
def cfgMesh2 : Config :=
  { cfgSeq5 with num_nodes := 2, optimal_connected := true }

/-- Errors arising inside `run_app` (contexts at lines 144-150, 156-168,
220, 265, 283-296). -/
inductive LaunchError where
  | invalidGenesisPath
  | invalidNodePath
  | createDirError (i : Nat)
  | findGenesisError (i : Nat)
  | copyGenesisError (i : Nat)
  | bakerCredError (i : Nat)
  | spawnError (i : Nat)
  | logFileError (i : Nat)
  | stderrError (i : Nat)
deriving Repr, DecidableEq

/-- Observable process-lifecycle actions of the launch loop and the quit
path: a child process was spawned (line 283) or killed (line 349). -/
inductive LaunchAction where
  | spawned (i : Nat)
  | killed (i : Nat)
deriving Repr, DecidableEq

/-- Outcome oracle for the effectful operations of one loop iteration:
whether, at node index `i`, directory creation, locating `genesis.dat`,
copying it, resolving a baker credentials file, spawning the child,
creating the log file, and taking the child's stderr succeed. -/
structure LaunchEnv where
  createDirOk : Nat → Bool
  findGenesisOk : Nat → Bool
  copyGenesisOk : Nat → Bool
  credOk : Nat → Bool
  spawnOk : Nat → Bool
  logFileOk : Nat → Bool
  takeStderrOk : Nat → Bool

/-- The launch loop of `run_app` (lines 152-325) from node index `i`
with `rem` nodes left: per iteration, create the peer directory, locate
and copy `genesis.dat`, build the command (baker credentials included),
spawn the child, then create the log file and take stderr.  Every `?`
propagation returns the error together with the trace of lifecycle
actions so far; no kill action exists on any error path. -/
def launchFrom (cfg : Config) (env : LaunchEnv) :
    Nat → Nat → Except LaunchError Unit × List LaunchAction
  | _, 0 => (Except.ok (), [])
  | i, rem + 1 =>
    if env.createDirOk i = false then
      (Except.error (LaunchError.createDirError i), [])
    else if env.findGenesisOk i = false then
      (Except.error (LaunchError.findGenesisError i), [])
    else if env.copyGenesisOk i = false then
      (Except.error (LaunchError.copyGenesisError i), [])
    else
      match buildNodeCmd cfg env.credOk i with
      | Except.error _ => (Except.error (LaunchError.bakerCredError i), [])
      | Except.ok _ =>
        if env.spawnOk i = false then
          (Except.error (LaunchError.spawnError i), [])
        else if cfg.no_emit_logs = false ∧ env.logFileOk i = false then
          (Except.error (LaunchError.logFileError i),
           [LaunchAction.spawned i])
        else if env.takeStderrOk i = false then
          (Except.error (LaunchError.stderrError i),
           [LaunchAction.spawned i])
        else
          let r := launchFrom cfg env (i + 1) rem
          (r.1, LaunchAction.spawned i :: r.2)

/-- The whole launch loop over nodes `0..num_nodes`. -/
def launchNodes (cfg : Config) (env : LaunchEnv) :
    Except LaunchError Unit × List LaunchAction :=
  launchFrom cfg env 0 cfg.num_nodes

/-- A launch environment in which every operation succeeds except the
spawn of node 2. -/
def envSpawnFail2 : LaunchEnv :=
  { createDirOk := fun _ => true, findGenesisOk := fun _ => true,
    copyGenesisOk := fun _ => true, credOk := fun _ => true,
    spawnOk := fun i => decide (i ≠ 2), logFileOk := fun _ => true,
    takeStderrOk := fun _ => true }

/-- Outcome oracle for `main` (lines 96-133): terminal setup (raw mode,
alternate screen, terminal construction), the result `run_app` returns,
and terminal restoration (raw mode off, leave alternate screen, show
cursor). -/
structure MainEnv where
  enableRawOk : Bool
  enterAltScreenOk : Bool
  newTerminalOk : Bool
  runAppResult : Except LaunchError Unit
  disableRawOk : Bool
  leaveAltScreenOk : Bool
  showCursorOk : Bool

/-- Observable events of `main`: the terminal was fully restored
(lines 120-126), or the error returned by `run_app` was printed
(lines 128-130). -/
inductive MainEvent where
  | restoredTerminal
  | printedError (e : LaunchError)
deriving Repr, DecidableEq

/-- `main` (lines 96-133): terminal setup failures propagate with `?`
and exit non-zero (modelled as 1).  After `run_app`, the terminal is
restored; a restore failure also propagates with `?`.  Only then is a
`run_app` error printed — and `main` still returns `Ok(())`, so the
process exits 0. -/
def mainRun (env : MainEnv) : Nat × List MainEvent :=
  if env.enableRawOk = false then (1, [])
  else if env.enterAltScreenOk = false then (1, [])
  else if env.newTerminalOk = false then (1, [])
  else if env.disableRawOk = false then (1, [])
  else if env.leaveAltScreenOk = false then (1, [])
  else if env.showCursorOk = false then (1, [])
  else
    match env.runAppResult with
    | Except.error e =>
      (0, [MainEvent.restoredTerminal, MainEvent.printedError e])
    | Except.ok _ => (0, [MainEvent.restoredTerminal])

/-- A run in which the terminal behaves and `run_app` fails with a
spawn error at node 2. -/
def envC2 : MainEnv :=
  { enableRawOk := true, enterAltScreenOk := true, newTerminalOk := true,
    runAppResult := Except.error (LaunchError.spawnError 2),
    disableRawOk := true, leaveAltScreenOk := true, showCursorOk := true }

/-- Claim C10: tab navigation is cyclic.  For every dashboard state with
`node_count > 0` titles and an in-range index: `previous` at 0 yields
`node_count - 1`, `next` at `node_count - 1` yields 0, otherwise `next`
adds one and `previous` subtracts one, and both keep the index inside
`[0, node_count)`. -/
theorem tab_navigation_cyclic (a : App) (hlen : 0 < a.titles.length)
    (hidx : a.index < a.titles.length) :
    (a.index = a.titles.length - 1 → (App.next a).index = 0) ∧
    (a.index < a.titles.length - 1 → (App.next a).index = a.index + 1) ∧
    (a.index = 0 → (App.previous a).index = a.titles.length - 1) ∧
    (0 < a.index → (App.previous a).index = a.index - 1) ∧
    (App.next a).index < a.titles.length ∧
    (App.previous a).index < a.titles.length := by
  refine ⟨?_, ?_, ?_, ?_, ?_, ?_⟩
  · intro h
    simp only [App.next, h, Nat.sub_add_cancel hlen, Nat.mod_self]
  · intro h
    simp only [App.next]
    exact Nat.mod_eq_of_lt (by omega)
  · intro h
    simp [App.previous, h]
  · intro h
    simp [App.previous, h]
  · exact Nat.mod_lt _ hlen
  · simp only [App.previous]
    split <;> simp <;> omega

/-- Witness for C10 at a concrete three-tab dashboard. -/
theorem tab_navigation_cyclic_witness :
    (App.next { titles := mkTitles 3, index := 2 }).index = 0 ∧
    (App.previous { titles := mkTitles 3, index := 0 }).index = 2 := by
  constructor
  · exact (tab_navigation_cyclic { titles := mkTitles 3, index := 2 }
      (by decide) (by decide)).1 (by decide)
  · exact (tab_navigation_cyclic { titles := mkTitles 3, index := 0 }
      (by decide) (by decide)).2.2.1 rfl

/-- Claim C9: the body match of `ui` only covers active tab indices 0-4;
every index at least 5 hits `unreachable!()` (modelled as `none`), and
with `node_count > 5` pressing next five times from the initial state
reaches index 5, at which rendering panics. -/
theorem ui_unreachable_above_four (n : Nat) (logs : List (List Char))
    (hn : 5 < n) :
    (∀ j, 5 ≤ j → uiRender j logs = none) ∧
    (App.next^[5] (App.new (mkTitles n))).index = 5 ∧
    uiRender (App.next^[5] (App.new (mkTitles n))).index logs = none := by
  have hstep : ∀ j, 5 ≤ j → uiRender j logs = none := by
    intro j hj
    obtain ⟨k, rfl⟩ : ∃ k, j = k + 5 := ⟨j - 5, by omega⟩
    rfl
  have hlen : (mkTitles n).length = n := by simp [mkTitles]
  have hidx : (App.next^[5] (App.new (mkTitles n))).index = 5 := by
    simp only [Function.iterate_succ, Function.iterate_zero, Function.comp_apply,
      id_eq, App.next, App.new, hlen]
    have e1 : (0 + 1) % n = 1 := Nat.mod_eq_of_lt (by omega)
    have e2 : (1 + 1) % n = 2 := Nat.mod_eq_of_lt (by omega)
    have e3 : (2 + 1) % n = 3 := Nat.mod_eq_of_lt (by omega)
    have e4 : (3 + 1) % n = 4 := Nat.mod_eq_of_lt (by omega)
    have e5 : (4 + 1) % n = 5 := Nat.mod_eq_of_lt (by omega)
    simp [e1, e2, e3, e4, e5]
  exact ⟨hstep, hidx, by rw [hidx]; exact hstep 5 (by omega)⟩

/-- Witness for C9 at `node_count = 6`. -/
theorem ui_unreachable_above_four_witness :
    uiRender 5 [] = none ∧
    (App.next^[5] (App.new (mkTitles 6))).index = 5 := by
  have h := ui_unreachable_above_four 6 [] (by decide)
  exact ⟨h.1 5 (by decide), h.2.1⟩

theorem splitOnNl_append_newline (l rest : List Char) (hl : '\n' ∉ l) :
    splitOnNl (l ++ '\n' :: rest) = l :: splitOnNl rest := by
  induction l with
  | nil => simp [splitOnNl]
  | cons c l ih =>
    have hc : c ≠ '\n' := by intro h; exact hl (by simp [h])
    have hl' : '\n' ∉ l := fun h => hl (by simp [h])
    simp only [List.cons_append, splitOnNl, if_neg hc, List.append_eq, ih hl']

theorem splitOnNl_mkBuffer (ls : List (List Char)) (h : ∀ l ∈ ls, '\n' ∉ l) :
    splitOnNl (mkBuffer ls) = ls ++ [[]] := by
  induction ls with
  | nil => simp [mkBuffer, splitOnNl]
  | cons l ls ih =>
    have hb : mkBuffer (l :: ls) = l ++ '\n' :: mkBuffer ls := by
      simp [mkBuffer]
    rw [hb, splitOnNl_append_newline _ _ (h l (by simp)),
      ih (fun x hx => h x (by simp [hx]))]
    simp

theorem count_newlines_mkBuffer (ls : List (List Char))
    (h : ∀ l ∈ ls, '\n' ∉ l) :
    ((mkBuffer ls).filter (fun c => c == '\n')).length = ls.length := by
  induction ls with
  | nil => simp [mkBuffer]
  | cons l ls ih =>
    have hb : mkBuffer (l :: ls) = (l ++ ['\n']) ++ mkBuffer ls := by
      simp [mkBuffer]
    have hf : l.filter (fun c => c == '\n') = [] := by
      rw [List.filter_eq_nil_iff]
      intro a ha hEq
      exact h l (by simp) (by simpa using (beq_iff_eq.mp hEq) ▸ ha)
    rw [hb, List.filter_append, List.filter_append, hf]
    simp [ih (fun x hx => h x (by simp [hx]))]

theorem stripCr_eq_self (l : List Char) (h : '\r' ∉ l) : stripCr l = l := by
  unfold stripCr
  split
  · next hlast => exact absurd (List.mem_of_getLast?_eq_some hlast) h
  · rfl

theorem rustLines_mkBuffer (ls : List (List Char)) (hn : ∀ l ∈ ls, '\n' ∉ l)
    (hr : ∀ l ∈ ls, '\r' ∉ l) :
    rustLines (mkBuffer ls) = ls := by
  unfold rustLines
  rw [splitOnNl_mkBuffer ls hn]
  simp only [List.getLast?_concat, if_pos rfl, List.dropLast_concat]
  exact List.map_congr_left (fun l hl => stripCr_eq_self l (hr l hl)) |>.trans
    (List.map_id ls)

theorem view_log_windows (ls : List (List Char)) (k : Nat)
    (h35 : 35 < ls.length) (hn : ∀ l ∈ ls, '\n' ∉ l)
    (hr : ∀ l ∈ ls, '\r' ∉ l) :
    view_log (mkBuffer ls) k =
      List.intercalate ['\n'] (ls.drop (ls.length - 34)) := by
  unfold view_log
  rw [count_newlines_mkBuffer ls hn, rustLines_mkBuffer ls hn hr, if_pos h35]

/-- Claim C8: for a log buffer holding 100 appended lines, rendering the
active tab (any of the five covered tab indices) shows exactly the most
recent 34 lines — the "~35" display window — and the draw step returns
the log buffers unchanged, so the earlier 66 lines stay in the buffer. -/
theorem log_windowing (ls : List (List Char)) (logs : List (List Char))
    (ts : List String) (idx : Nat) (h100 : ls.length = 100)
    (hn : ∀ l ∈ ls, '\n' ∉ l) (hr : ∀ l ∈ ls, '\r' ∉ l)
    (hidx : idx ≤ 4) (hget : logs[idx]? = some (mkBuffer ls)) :
    renderFrame { titles := ts, index := idx } logs =
      (some (List.intercalate ['\n'] (ls.drop 66)), logs) := by
  have h35 : 35 < ls.length := by omega
  have hview : ∀ k, view_log (mkBuffer ls) k =
      List.intercalate ['\n'] (ls.drop 66) := by
    intro k
    rw [view_log_windows ls k h35 hn hr, h100]
  unfold renderFrame uiRender
  interval_cases idx <;> rw [hget] <;> simp [hview]

/-- Witness for C8 at a concrete buffer of 100 one-character lines. -/
theorem log_windowing_witness :
    renderFrame { titles := [], index := 0 }
        [mkBuffer (List.replicate 100 ['x'])] =
      (some (List.intercalate ['\n'] ((List.replicate 100 ['x']).drop 66)),
       [mkBuffer (List.replicate 100 ['x'])]) :=
  log_windowing (List.replicate 100 ['x']) [mkBuffer (List.replicate 100 ['x'])]
    [] 0 (by decide) (by decide) (by decide) (by decide) rfl

theorem readBatch_eof (stream : Nat → ReadEvent) :
    ∀ (k p : Nat) (acc : List Char), (∀ q, p ≤ q → stream q = ReadEvent.eof) →
    readBatch stream p k acc = some (acc, p + k) := by
  intro k
  induction k with
  | zero => intro p acc _; simp [readBatch]
  | succ k ih =>
    intro p acc h
    rw [readBatch, h p (Nat.le_refl p), ih (p + 1) acc (fun q hq => h q (by omega))]
    have : p + 1 + k = p + (k + 1) := by omega
    rw [this]

/-- Counterexample to claim C7 as stated: when the process's
error-output stream is closed (every read hits end of stream, as after
the process exits), the streaming task does not end — after three full
batch iterations over the closed stream it is still running — although
it sends no batch. -/
theorem reader_eof_counterexample :
    readerRun (fun _ => ReadEvent.eof) 0 3 = ([], false) := by decide

/-- Claim C7 (amended): if a read on the error-output stream returns an
actual error, the task panics and ends, sending no further batch from
that point on; if instead the stream merely reaches its end (process
exited, stream closed), the task keeps looping and never ends on its
own, but still sends no further batch. -/
theorem reader_failure_behavior (stream : Nat → ReadEvent) (p fuel : Nat) :
    (stream p = ReadEvent.err → readerRun stream p (fuel + 1) = ([], true)) ∧
    ((∀ q, p ≤ q → stream q = ReadEvent.eof) →
      readerRun stream p fuel = ([], false)) := by
  constructor
  · intro h
    rw [readerRun, readBatch, h]
  · induction fuel generalizing p with
    | zero => intro _; rfl
    | succ fuel ih =>
      intro h
      rw [readerRun, readBatch_eof stream 10 p [] h]
      simp [ih (p + 10) (fun q hq => h q (by omega))]

/-- Witness for C7 (amended): a stream erring at its first read ends the
task at once with nothing sent; an all-EOF stream leaves the task
running with nothing sent after four iterations. -/
theorem reader_failure_behavior_witness :
    readerRun (fun _ => ReadEvent.err) 0 1 = ([], true) ∧
    readerRun (fun _ => ReadEvent.eof) 0 4 = ([], false) :=
  ⟨(reader_failure_behavior (fun _ => ReadEvent.err) 0 0).1 rfl,
   (reader_failure_behavior (fun _ => ReadEvent.eof) 0 4).2 (fun _ _ => rfl)⟩

theorem envLookup_append (k : String) (xs ys : List (String × String)) :
    envLookup k (xs ++ ys) = (envLookup k xs).or (envLookup k ys) := by
  unfold envLookup
  rw [List.find?_append]
  cases xs.find? (fun p => p.1 == k) <;> simp

theorem envLookup_base_ct (cfg : Config) (i : Nat) :
    envLookup "CONCORDIUM_NODE_CONNECTION_CONNECT_TO" (baseEnvs cfg i) =
      none := rfl

theorem envLookup_base_desired (cfg : Config) (i : Nat) :
    envLookup "CONCORDIUM_NODE_CONNECTION_DESIRED_NODES" (baseEnvs cfg i) =
      none := rfl

theorem envLookup_base_max (cfg : Config) (i : Nat) :
    envLookup "CONCORDIUM_NODE_CONNECTION_MAX_ALLOWED_NODES"
      (baseEnvs cfg i) = none := rfl

theorem envLookup_base_baker (cfg : Config) (i : Nat) :
    envLookup "CONCORDIUM_NODE_BAKER_CREDENTIALS_FILE" (baseEnvs cfg i) =
      none := rfl

theorem envLookup_bakerPair_ct (root : String) (j : Nat) :
    envLookup "CONCORDIUM_NODE_CONNECTION_CONNECT_TO"
      [("CONCORDIUM_NODE_BAKER_CREDENTIALS_FILE",
        bakerCredentialsPath root j)] = none := rfl

theorem envLookup_bakerPair_desired (root : String) (j : Nat) :
    envLookup "CONCORDIUM_NODE_CONNECTION_DESIRED_NODES"
      [("CONCORDIUM_NODE_BAKER_CREDENTIALS_FILE",
        bakerCredentialsPath root j)] = none := rfl

theorem envLookup_bakerPair_max (root : String) (j : Nat) :
    envLookup "CONCORDIUM_NODE_CONNECTION_MAX_ALLOWED_NODES"
      [("CONCORDIUM_NODE_BAKER_CREDENTIALS_FILE",
        bakerCredentialsPath root j)] = none := rfl

theorem envLookup_bakerPair_baker (root : String) (j : Nat) :
    envLookup "CONCORDIUM_NODE_BAKER_CREDENTIALS_FILE"
      [("CONCORDIUM_NODE_BAKER_CREDENTIALS_FILE",
        bakerCredentialsPath root j)] =
      some (bakerCredentialsPath root j) := rfl

theorem envLookup_ctPair_ct (addr : String) :
    envLookup "CONCORDIUM_NODE_CONNECTION_CONNECT_TO"
      [("CONCORDIUM_NODE_CONNECTION_CONNECT_TO", addr)] = some addr := rfl

theorem envLookup_ctPair_desired (addr : String) :
    envLookup "CONCORDIUM_NODE_CONNECTION_DESIRED_NODES"
      [("CONCORDIUM_NODE_CONNECTION_CONNECT_TO", addr)] = none := rfl

theorem envLookup_ctPair_max (addr : String) :
    envLookup "CONCORDIUM_NODE_CONNECTION_MAX_ALLOWED_NODES"
      [("CONCORDIUM_NODE_CONNECTION_CONNECT_TO", addr)] = none := rfl

theorem envLookup_ctPair_baker (addr : String) :
    envLookup "CONCORDIUM_NODE_BAKER_CREDENTIALS_FILE"
      [("CONCORDIUM_NODE_CONNECTION_CONNECT_TO", addr)] = none := rfl

theorem envLookup_tail_ct (v : String) :
    envLookup "CONCORDIUM_NODE_CONNECTION_CONNECT_TO"
      [("CONCORDIUM_NODE_CONNECTION_DESIRED_NODES", v),
       ("CONCORDIUM_NODE_CONNECTION_MAX_ALLOWED_NODES", v)] = none := rfl

theorem envLookup_tail_desired (v : String) :
    envLookup "CONCORDIUM_NODE_CONNECTION_DESIRED_NODES"
      [("CONCORDIUM_NODE_CONNECTION_DESIRED_NODES", v),
       ("CONCORDIUM_NODE_CONNECTION_MAX_ALLOWED_NODES", v)] = some v := rfl

theorem envLookup_tail_max (v : String) :
    envLookup "CONCORDIUM_NODE_CONNECTION_MAX_ALLOWED_NODES"
      [("CONCORDIUM_NODE_CONNECTION_DESIRED_NODES", v),
       ("CONCORDIUM_NODE_CONNECTION_MAX_ALLOWED_NODES", v)] = some v := rfl

theorem envLookup_tail_baker (v : String) :
    envLookup "CONCORDIUM_NODE_BAKER_CREDENTIALS_FILE"
      [("CONCORDIUM_NODE_CONNECTION_DESIRED_NODES", v),
       ("CONCORDIUM_NODE_CONNECTION_MAX_ALLOWED_NODES", v)] = none := rfl

theorem envLookup_nil (k : String) : envLookup k [] = none := rfl

/-- Claim C3 (amended): in sequential mode every node `i` is configured
to connect to node `i + 1` only (the last node gets no peer), and the
desired/maximum peer counts are 1 for the two endpoint nodes but 2 for
every interior node. -/
theorem seq_peer_config (cfg : Config) (credOk : Nat → Bool) (i : Nat)
    (hseq : cfg.optimal_connected = false) (hi : i < cfg.num_nodes)
    (hcred : credOk 0 = true) :
    ∃ spec, buildNodeCmd cfg credOk i = Except.ok spec ∧
      envLookup "CONCORDIUM_NODE_CONNECTION_CONNECT_TO" spec.envs =
        (if i < cfg.num_nodes - 1 then
          some ("127.0.0.1:" ++ toString (cfg.peer_port_offset + i + 1))
        else none) ∧
      envLookup "CONCORDIUM_NODE_CONNECTION_DESIRED_NODES" spec.envs =
        some (if i = 0 ∨ i = cfg.num_nodes - 1 then "1" else "2") ∧
      envLookup "CONCORDIUM_NODE_CONNECTION_MAX_ALLOWED_NODES" spec.envs =
        some (if i = 0 ∨ i = cfg.num_nodes - 1 then "1" else "2") := by
  unfold buildNodeCmd
  rw [if_pos hseq]
  by_cases hlast : i = cfg.num_nodes - 1
  · have hbaker : seqBakerEnvs cfg credOk i = Except.ok
        [("CONCORDIUM_NODE_BAKER_CREDENTIALS_FILE",
          bakerCredentialsPath cfg.genesis_root 0)] := by
      unfold seqBakerEnvs
      rw [if_pos hlast, if_pos hcred]
    have hnc : ¬ i < cfg.num_nodes - 1 := by omega
    rw [hbaker]
    refine ⟨_, rfl, ?_, ?_, ?_⟩ <;>
      simp only [if_neg hnc, if_pos (Or.inr hlast), List.append_nil,
        envLookup_append, envLookup_base_ct, envLookup_base_desired,
        envLookup_base_max, envLookup_bakerPair_ct,
        envLookup_bakerPair_desired, envLookup_bakerPair_max,
        envLookup_tail_ct, envLookup_tail_desired, envLookup_tail_max,
        Option.none_or]
  · have hbaker : seqBakerEnvs cfg credOk i = Except.ok [] := by
      unfold seqBakerEnvs
      rw [if_neg hlast]
    have hc2 : i < cfg.num_nodes - 1 := by omega
    rw [hbaker]
    refine ⟨_, rfl, ?_, ?_, ?_⟩ <;>
      simp only [if_pos hc2, List.nil_append, List.append_nil,
        envLookup_append, envLookup_base_ct, envLookup_base_desired,
        envLookup_base_max, envLookup_ctPair_ct, envLookup_ctPair_desired,
        envLookup_ctPair_max, envLookup_tail_ct, envLookup_tail_desired,
        envLookup_tail_max, Option.none_or, Option.or_some]

/-- Counterexample to claim C3 as stated: in sequential mode with three
nodes, the interior node 1 gets desired peer count "2", not "1". -/
theorem seq_desired_counterexample :
    ((buildNodeCmd cfgSeq3 (fun _ => true) 1).toOption.map
      (fun s => envLookup "CONCORDIUM_NODE_CONNECTION_DESIRED_NODES"
        s.envs)) = some (some "2") ∧
    ((buildNodeCmd cfgSeq3 (fun _ => true) 1).toOption.map
      (fun s => envLookup "CONCORDIUM_NODE_CONNECTION_MAX_ALLOWED_NODES"
        s.envs)) = some (some "2") ∧
    ("2" : String) ≠ "1" := by decide

/-- Witness for amended C3 at node 1 of the five-node configuration. -/
theorem seq_peer_config_witness :
    ∃ spec, buildNodeCmd cfgSeq5 (fun _ => true) 1 = Except.ok spec ∧
      envLookup "CONCORDIUM_NODE_CONNECTION_CONNECT_TO" spec.envs =
        (if 1 < cfgSeq5.num_nodes - 1 then
          some ("127.0.0.1:" ++ toString (cfgSeq5.peer_port_offset + 1 + 1))
        else none) ∧
      envLookup "CONCORDIUM_NODE_CONNECTION_DESIRED_NODES" spec.envs =
        some (if 1 = 0 ∨ 1 = cfgSeq5.num_nodes - 1 then "1" else "2") ∧
      envLookup "CONCORDIUM_NODE_CONNECTION_MAX_ALLOWED_NODES" spec.envs =
        some (if 1 = 0 ∨ 1 = cfgSeq5.num_nodes - 1 then "1" else "2") :=
  seq_peer_config cfgSeq5 (fun _ => true) 1 rfl (by decide) rfl

/-- Claim C4 (amended): in sequential mode exactly the last node is
assigned baker credentials (always `baker-0-credentials.json`),
regardless of which per-node credential files exist; no all-baker case
exists. -/
theorem seq_baker_assignment (cfg : Config) (credOk : Nat → Bool) (i : Nat)
    (hseq : cfg.optimal_connected = false) (hi : i < cfg.num_nodes)
    (hcred : credOk 0 = true) :
    ∃ spec, buildNodeCmd cfg credOk i = Except.ok spec ∧
      ((envLookup "CONCORDIUM_NODE_BAKER_CREDENTIALS_FILE"
          spec.envs).isSome = true ↔ i = cfg.num_nodes - 1) := by
  unfold buildNodeCmd
  rw [if_pos hseq]
  by_cases hlast : i = cfg.num_nodes - 1
  · have hbaker : seqBakerEnvs cfg credOk i = Except.ok
        [("CONCORDIUM_NODE_BAKER_CREDENTIALS_FILE",
          bakerCredentialsPath cfg.genesis_root 0)] := by
      unfold seqBakerEnvs
      rw [if_pos hlast, if_pos hcred]
    rw [hbaker]
    refine ⟨_, rfl, ?_⟩
    simp only [envLookup_append, envLookup_base_baker,
      envLookup_bakerPair_baker, Option.none_or, Option.or_some,
      Option.isSome_some, true_iff]
    exact hlast
  · have hbaker : seqBakerEnvs cfg credOk i = Except.ok [] := by
      unfold seqBakerEnvs
      rw [if_neg hlast]
    rw [hbaker]
    refine ⟨_, rfl, ?_⟩
    have hnc : ¬ i < cfg.num_nodes - 1 ∨ i < cfg.num_nodes - 1 := by omega
    by_cases hc2 : i < cfg.num_nodes - 1
    · simp only [if_pos hc2, List.nil_append, envLookup_append,
        envLookup_nil, envLookup_base_baker, envLookup_ctPair_baker,
        envLookup_tail_baker, Option.none_or, Option.isSome_none]
      simp [hlast]
    · simp only [if_neg hc2, List.nil_append, List.append_nil,
        envLookup_append, envLookup_nil, envLookup_base_baker,
        envLookup_tail_baker, Option.none_or, Option.isSome_none]
      simp [hlast]

/-- Counterexample to claim C4 as stated: with two nodes in sequential
mode and every per-node credential file present, node 0 is still not
assigned baker credentials, so no all-baker assignment takes place. -/
theorem seq_all_creds_counterexample :
    ((buildNodeCmd cfgSeq2 (fun _ => true) 0).toOption.map
      (fun s => envLookup "CONCORDIUM_NODE_BAKER_CREDENTIALS_FILE"
        s.envs)) = some none ∧
    cfgSeq2.num_nodes = 2 := by decide

/-- Witness for amended C4 at the last node of the two-node
configuration. -/
theorem seq_baker_assignment_witness :
    ∃ spec, buildNodeCmd cfgSeq2 (fun _ => true) 1 = Except.ok spec ∧
      ((envLookup "CONCORDIUM_NODE_BAKER_CREDENTIALS_FILE"
          spec.envs).isSome = true ↔ 1 = cfgSeq2.num_nodes - 1) :=
  seq_baker_assignment cfgSeq2 (fun _ => true) 1 rfl (by decide) rfl

/-- Claim C5 (amended): in full-mesh mode the first `min 5 node_count`
nodes are assigned baker credentials — the bound is the hardcoded
constant 5, not the number of available credential files — and a
missing credential file among those indices aborts the launch with
"Invalid baker credentials" instead of reducing the baker count. -/
theorem fullmesh_baker_assignment (cfg : Config) (credOk : Nat → Bool)
    (i : Nat) (hfm : cfg.optimal_connected = true) (hi : i < cfg.num_nodes) :
    ((i < 5 → credOk i = true) →
      ∃ spec, buildNodeCmd cfg credOk i = Except.ok spec ∧
        ((envLookup "CONCORDIUM_NODE_BAKER_CREDENTIALS_FILE"
            spec.envs).isSome = true ↔ i < min 5 cfg.num_nodes)) ∧
    (i < 5 → credOk i = false →
      buildNodeCmd cfg credOk i =
        Except.error "Invalid baker credentials") := by
  have hne : ¬ cfg.optimal_connected = false := by simp [hfm]
  constructor
  · intro hcred
    unfold buildNodeCmd
    rw [if_neg hne]
    by_cases h5 : i < 5
    · have hbaker : meshBakerEnvs cfg credOk i = Except.ok
          [("CONCORDIUM_NODE_BAKER_CREDENTIALS_FILE",
            bakerCredentialsPath cfg.genesis_root i)] := by
        unfold meshBakerEnvs
        rw [if_pos h5, if_pos (hcred h5)]
      rw [hbaker]
      refine ⟨_, rfl, ?_⟩
      simp only [envLookup_append, envLookup_base_baker,
        envLookup_bakerPair_baker, Option.none_or, Option.or_some,
        Option.isSome_some, true_iff]
      omega
    · have hbaker : meshBakerEnvs cfg credOk i = Except.ok [] := by
        unfold meshBakerEnvs
        rw [if_neg h5]
      rw [hbaker]
      refine ⟨_, rfl, ?_⟩
      simp only [List.append_nil, envLookup_base_baker, Option.isSome_none,
        Bool.false_eq_true, false_iff]
      omega
  · intro h5 hbad
    unfold buildNodeCmd
    rw [if_neg hne]
    have hbaker : meshBakerEnvs cfg credOk i =
        Except.error "Invalid baker credentials" := by
      unfold meshBakerEnvs
      rw [if_pos h5, if_neg (by simp [hbad])]
    rw [hbaker]

/-- Counterexample to claim C5 as stated: with seven nodes in full-mesh
mode and seven available credential files, the claimed bound is
`K = min 7 7 = 7`, yet node 5 is assigned no baker credentials. -/
theorem fullmesh_k_counterexample :
    5 < min 7 7 ∧
    ((buildNodeCmd cfgMesh7 (fun j => decide (j < 7)) 5).toOption.map
      (fun s => envLookup "CONCORDIUM_NODE_BAKER_CREDENTIALS_FILE"
        s.envs)) = some none := by decide

/-- Witness for amended C5 at node 2 of the seven-node full-mesh
configuration. -/
theorem fullmesh_baker_assignment_witness :
    ∃ spec, buildNodeCmd cfgMesh7 (fun _ => true) 2 = Except.ok spec ∧
      ((envLookup "CONCORDIUM_NODE_BAKER_CREDENTIALS_FILE"
          spec.envs).isSome = true ↔ 2 < min 5 cfgMesh7.num_nodes) :=
  (fullmesh_baker_assignment cfgMesh7 (fun _ => true) 2 rfl (by decide)).1
    (fun _ => rfl)

theorem flatMap_skip_eq_filter (i : Nat) (f : Nat → List String)
    (l : List Nat) :
    (l.flatMap (fun n => if i = n then [] else f n)) =
      (l.filter (fun j => j != i)).flatMap f := by
  induction l with
  | nil => rfl
  | cons a l ih =>
    simp only [List.flatMap_cons, List.filter_cons]
    by_cases h : i = a
    · subst h
      simp [ih]
    · have hne : (a != i) = true := by
        simp only [bne_iff_ne]
        exact fun hh => h hh.symm
      simp [if_neg h, hne, List.flatMap_cons, ih]

/-- Claim C6 (amended): in full-mesh mode node `i` is given
`--connect-to` arguments for exactly the other indices `j ≠ i`, but no
desired or maximum peer count is configured at all (the corresponding
environment variables are absent). -/
theorem fullmesh_peer_config (cfg : Config) (credOk : Nat → Bool) (i : Nat)
    (hfm : cfg.optimal_connected = true) (hi : i < cfg.num_nodes)
    (hcred : i < 5 → credOk i = true) :
    ∃ spec, buildNodeCmd cfg credOk i = Except.ok spec ∧
      spec.args = baseArgs ++
        ((List.range cfg.num_nodes).filter (fun j => j != i)).flatMap
          (fun j => ["--connect-to",
            "127.0.0.1:" ++ toString (cfg.peer_port_offset + j)]) ∧
      envLookup "CONCORDIUM_NODE_CONNECTION_DESIRED_NODES" spec.envs =
        none ∧
      envLookup "CONCORDIUM_NODE_CONNECTION_MAX_ALLOWED_NODES" spec.envs =
        none := by
  have hne : ¬ cfg.optimal_connected = false := by simp [hfm]
  unfold buildNodeCmd
  rw [if_neg hne]
  by_cases h5 : i < 5
  · have hbaker : meshBakerEnvs cfg credOk i = Except.ok
        [("CONCORDIUM_NODE_BAKER_CREDENTIALS_FILE",
          bakerCredentialsPath cfg.genesis_root i)] := by
      unfold meshBakerEnvs
      rw [if_pos h5, if_pos (hcred h5)]
    rw [hbaker]
    refine ⟨_, rfl, ?_, ?_, ?_⟩
    · exact congrArg (baseArgs ++ ·) (flatMap_skip_eq_filter i _ _)
    · simp only [envLookup_append, envLookup_base_desired,
        envLookup_bakerPair_desired, Option.none_or]
    · simp only [envLookup_append, envLookup_base_max,
        envLookup_bakerPair_max, Option.none_or]
  · have hbaker : meshBakerEnvs cfg credOk i = Except.ok [] := by
      unfold meshBakerEnvs
      rw [if_neg h5]
    rw [hbaker]
    refine ⟨_, rfl, ?_, ?_, ?_⟩
    · exact congrArg (baseArgs ++ ·) (flatMap_skip_eq_filter i _ _)
    · simp only [List.append_nil, envLookup_base_desired]
    · simp only [List.append_nil, envLookup_base_max]

/-- Counterexample to claim C6 as stated: in full-mesh mode with two
nodes, node 0 has no desired-peer-count environment variable at all,
while the claim requires it to be set to `node_count - 1 = 1`. -/
theorem fullmesh_desired_counterexample :
    ((buildNodeCmd cfgMesh2 (fun _ => true) 0).toOption.map
      (fun s => envLookup "CONCORDIUM_NODE_CONNECTION_DESIRED_NODES"
        s.envs)) = some none := by decide

/-- Witness for amended C6 at node 0 of the two-node full-mesh
configuration. -/
theorem fullmesh_peer_config_witness :
    ∃ spec, buildNodeCmd cfgMesh2 (fun _ => true) 0 = Except.ok spec ∧
      spec.args = baseArgs ++
        ((List.range cfgMesh2.num_nodes).filter (fun j => j != 0)).flatMap
          (fun j => ["--connect-to",
            "127.0.0.1:" ++ toString (cfgMesh2.peer_port_offset + j)]) ∧
      envLookup "CONCORDIUM_NODE_CONNECTION_DESIRED_NODES" spec.envs =
        none ∧
      envLookup "CONCORDIUM_NODE_CONNECTION_MAX_ALLOWED_NODES" spec.envs =
        none :=
  fullmesh_peer_config cfgMesh2 (fun _ => true) 0 rfl (by decide)
    (fun _ => rfl)

/-- Counterexample to claim C1 as stated: when spawning node 2 of 5
fails, the launch loop propagates the spawn error while nodes 0 and 1
have been spawned, and no kill action whatsoever precedes the
propagation — the partial fleet is left running. -/
theorem launch_no_rollback_counterexample :
    launchNodes cfgSeq5 envSpawnFail2 =
      (Except.error (LaunchError.spawnError 2),
       [LaunchAction.spawned 0, LaunchAction.spawned 1]) ∧
    LaunchAction.killed 0 ∉ (launchNodes cfgSeq5 envSpawnFail2).2 ∧
    LaunchAction.killed 1 ∉ (launchNodes cfgSeq5 envSpawnFail2).2 := by
  refine ⟨rfl, ?_, ?_⟩ <;> decide

theorem launchFrom_spawn_failure (cfg : Config) (env : LaunchEnv) :
    ∀ (k i rem : Nat), k < rem →
    (∀ j, i ≤ j → j ≤ i + k → env.createDirOk j = true ∧
      env.findGenesisOk j = true ∧ env.copyGenesisOk j = true ∧
      (buildNodeCmd cfg env.credOk j).toOption.isSome = true) →
    (∀ j, i ≤ j → j < i + k → env.spawnOk j = true ∧
      (cfg.no_emit_logs = false → env.logFileOk j = true) ∧
      env.takeStderrOk j = true) →
    env.spawnOk (i + k) = false →
    launchFrom cfg env i rem =
      (Except.error (LaunchError.spawnError (i + k)),
       (List.range' i k).map LaunchAction.spawned) := by
  intro k
  induction k with
  | zero =>
    intro i rem hrem hok _ hfail
    obtain ⟨r, rfl⟩ : ∃ r, rem = r + 1 := ⟨rem - 1, by omega⟩
    obtain ⟨hcd, hfg, hcp, hbno⟩ := hok i (Nat.le_refl i) (by omega)
    obtain ⟨s, hs⟩ : ∃ s, buildNodeCmd cfg env.credOk i = Except.ok s := by
      cases hb : buildNodeCmd cfg env.credOk i with
      | error e => rw [hb] at hbno; simp [Except.toOption] at hbno
      | ok s => exact ⟨s, rfl⟩
    rw [launchFrom, if_neg (by simp [hcd]), if_neg (by simp [hfg]),
      if_neg (by simp [hcp]), hs]
    rw [if_pos (by simpa using hfail)]
    simp [List.range']
  | succ k ih =>
    intro i rem hrem hok hrun hfail
    obtain ⟨r, rfl⟩ : ∃ r, rem = r + 1 := ⟨rem - 1, by omega⟩
    obtain ⟨hcd, hfg, hcp, hbno⟩ := hok i (Nat.le_refl i) (by omega)
    obtain ⟨s, hs⟩ : ∃ s, buildNodeCmd cfg env.credOk i = Except.ok s := by
      cases hb : buildNodeCmd cfg env.credOk i with
      | error e => rw [hb] at hbno; simp [Except.toOption] at hbno
      | ok s => exact ⟨s, rfl⟩
    obtain ⟨hsp, hlf, hts⟩ := hrun i (Nat.le_refl i) (by omega)
    have hlog : ¬ (cfg.no_emit_logs = false ∧ env.logFileOk i = false) := by
      rintro ⟨hne, hbad⟩
      rw [hlf hne] at hbad
      exact absurd hbad (by simp)
    rw [launchFrom, if_neg (by simp [hcd]), if_neg (by simp [hfg]),
      if_neg (by simp [hcp]), hs, if_neg (by simp [hsp]), if_neg hlog,
      if_neg (by simp [hts])]
    have hrec := ih (i + 1) r (by omega)
      (fun j hj1 hj2 => hok j (by omega) (by omega))
      (fun j hj1 hj2 => hrun j (by omega) (by omega))
      (by have : i + 1 + k = i + (k + 1) := by omega
          rw [this]; exact hfail)
    rw [hrec]
    have hidx : i + 1 + k = i + (k + 1) := by omega
    rw [List.range'_succ]
    simp [hidx]

/-- Claim C1 (amended): if spawning fails for node `k` while everything
before succeeded, the launch loop aborts at once with the spawn error,
and the processes spawned for the lower indices `0..k` are left running:
the action trace is exactly the spawns of those nodes, with no kill
action before the error propagates. -/
theorem launch_spawn_failure (cfg : Config) (env : LaunchEnv) (k : Nat)
    (hk : k < cfg.num_nodes)
    (hok : ∀ j, j ≤ k → env.createDirOk j = true ∧
      env.findGenesisOk j = true ∧ env.copyGenesisOk j = true ∧
      (buildNodeCmd cfg env.credOk j).toOption.isSome = true)
    (hrun : ∀ j, j < k → env.spawnOk j = true ∧
      (cfg.no_emit_logs = false → env.logFileOk j = true) ∧
      env.takeStderrOk j = true)
    (hfail : env.spawnOk k = false) :
    launchNodes cfg env =
      (Except.error (LaunchError.spawnError k),
       (List.range k).map LaunchAction.spawned) := by
  unfold launchNodes
  have h := launchFrom_spawn_failure cfg env k 0 cfg.num_nodes hk
    (fun j hj1 hj2 => hok j (by omega))
    (fun j hj1 hj2 => hrun j (by omega))
    (by simpa using hfail)
  rw [h, List.range_eq_range']
  simp

/-- Witness for amended C1: the concrete five-node launch with spawn
failing at node 2 yields the spawn error and exactly the spawn actions
of nodes 0 and 1. -/
theorem launch_spawn_failure_witness :
    launchNodes cfgSeq5 envSpawnFail2 =
      (Except.error (LaunchError.spawnError 2),
       (List.range 2).map LaunchAction.spawned) :=
  launch_spawn_failure cfgSeq5 envSpawnFail2 2 (by decide)
    (by decide) (by decide) (by decide)

/-- Counterexample to claim C2 as stated: `run_app` fails with a spawn
error, yet `main` exits with code 0 (the error is only printed), so the
exit code is not non-zero on a spawn failure. -/
theorem main_exit_counterexample :
    envC2.runAppResult = Except.error (LaunchError.spawnError 2) ∧
    (mainRun envC2).1 = 0 := by
  exact ⟨rfl, rfl⟩

/-- Claim C2 (amended): the exit code is 0 exactly when terminal setup
and terminal restoration all succeed — including when `run_app` failed
with a configuration or spawn error, whose message is then printed; and
whenever an error is printed, the terminal has been restored first (the
event trace is restore followed by print). -/
theorem main_exit_behavior (env : MainEnv) :
    ((mainRun env).1 = 0 ↔
      (env.enableRawOk = true ∧ env.enterAltScreenOk = true ∧
       env.newTerminalOk = true ∧ env.disableRawOk = true ∧
       env.leaveAltScreenOk = true ∧ env.showCursorOk = true)) ∧
    (∀ e, MainEvent.printedError e ∈ (mainRun env).2 →
      (mainRun env).2 =
        [MainEvent.restoredTerminal, MainEvent.printedError e]) := by
  obtain ⟨e1, e2, e3, res, d1, d2, d3⟩ := env
  cases e1 <;> cases e2 <;> cases e3 <;> cases d1 <;> cases d2 <;>
    cases d3 <;> cases res <;> simp_all [mainRun]

/-- Witness for amended C2: with the concrete spawn-failure run, the
exit code is 0 and the trace is restore-then-print. -/
theorem main_exit_behavior_witness :
    (mainRun envC2).1 = 0 ∧
    (mainRun envC2).2 =
      [MainEvent.restoredTerminal,
       MainEvent.printedError (LaunchError.spawnError 2)] :=
  ⟨(main_exit_behavior envC2).1.mpr (by decide),
   (main_exit_behavior envC2).2 (LaunchError.spawnError 2) (by decide)⟩
